import Mathlib

/-!
Shallow embedding of the geometry/material core of the `rayt` path tracer
(`src/world/materials.rs` and `src/world/geometry/mod.rs`), with `f64`
modelled as the real numbers (and, where NaN is semantically relevant, as
an explicit tagged type).  Randomness is made explicit: each function that
draws random numbers in the source receives the draws as arguments, and the
rejection loop of `random_point_in_unit_sphere` is modelled on an infinite
stream of draws with explicit fuel.
-/

namespace Rayt

noncomputable section

/-- Three-component vector, from `data::vector::Vector` (external collaborator
of the core; component-wise arithmetic as in the spec's §6 interface). -/
@[ext]
structure Vector where
  x : ℝ
  y : ℝ
  z : ℝ

instance : Add Vector := ⟨fun v w => ⟨v.x + w.x, v.y + w.y, v.z + w.z⟩⟩

instance : Sub Vector := ⟨fun v w => ⟨v.x - w.x, v.y - w.y, v.z - w.z⟩⟩

instance : Neg Vector := ⟨fun v => ⟨-v.x, -v.y, -v.z⟩⟩

instance : HMul ℝ Vector Vector := ⟨fun a v => ⟨a * v.x, a * v.y, a * v.z⟩⟩

instance : HMul Vector ℝ Vector := ⟨fun v a => ⟨v.x * a, v.y * a, v.z * a⟩⟩

instance : HDiv Vector ℝ Vector := ⟨fun v a => ⟨v.x / a, v.y / a, v.z / a⟩⟩

@[simp] theorem Vector.add_x (v w : Vector) : (v + w).x = v.x + w.x := rfl

@[simp] theorem Vector.add_y (v w : Vector) : (v + w).y = v.y + w.y := rfl

@[simp] theorem Vector.add_z (v w : Vector) : (v + w).z = v.z + w.z := rfl

@[simp] theorem Vector.sub_x (v w : Vector) : (v - w).x = v.x - w.x := rfl

@[simp] theorem Vector.sub_y (v w : Vector) : (v - w).y = v.y - w.y := rfl

@[simp] theorem Vector.sub_z (v w : Vector) : (v - w).z = v.z - w.z := rfl

@[simp] theorem Vector.neg_x (v : Vector) : (-v).x = -v.x := rfl

@[simp] theorem Vector.neg_y (v : Vector) : (-v).y = -v.y := rfl

@[simp] theorem Vector.neg_z (v : Vector) : (-v).z = -v.z := rfl

@[simp] theorem Vector.smul_x (a : ℝ) (v : Vector) : (a * v).x = a * v.x := rfl

@[simp] theorem Vector.smul_y (a : ℝ) (v : Vector) : (a * v).y = a * v.y := rfl

@[simp] theorem Vector.smul_z (a : ℝ) (v : Vector) : (a * v).z = a * v.z := rfl

@[simp] theorem Vector.mulr_x (v : Vector) (a : ℝ) : (v * a).x = v.x * a := rfl

@[simp] theorem Vector.mulr_y (v : Vector) (a : ℝ) : (v * a).y = v.y * a := rfl

@[simp] theorem Vector.mulr_z (v : Vector) (a : ℝ) : (v * a).z = v.z * a := rfl

@[simp] theorem Vector.div_x (v : Vector) (a : ℝ) : (v / a).x = v.x / a := rfl

@[simp] theorem Vector.div_y (v : Vector) (a : ℝ) : (v / a).y = v.y / a := rfl

@[simp] theorem Vector.div_z (v : Vector) (a : ℝ) : (v / a).z = v.z / a := rfl

/-- `Vector::dot`. -/
def Vector.dot (v w : Vector) : ℝ := v.x * w.x + v.y * w.y + v.z * w.z

/-- `Vector::len_squared`. -/
def Vector.len_squared (v : Vector) : ℝ := Vector.dot v v

/-- `Vector::len`. -/
def Vector.len (v : Vector) : ℝ := Real.sqrt v.len_squared

/-- `Vector::unit_vector`: the vector divided by its length. -/
def Vector.unit_vector (v : Vector) : Vector := v / v.len

/-- RGB colour triple, from `data::colour::Colour` (external collaborator). -/
structure Colour where
  r : ℝ
  g : ℝ
  b : ℝ

/-- `Colour::new`. -/
def Colour.new (r g b : ℝ) : Colour := ⟨r, g, b⟩

/-- A ray: origin, direction, timestamp (spec §6: `origin()`, `direction()`,
`time()`). -/
structure Ray where
  origin : Vector
  direction : Vector
  time : ℝ

/-- `Ray::new`. -/
def Ray.new (origin direction : Vector) (time : ℝ) : Ray := ⟨origin, direction, time⟩

/-- Modelled from the spec: `Assets` is "a lookup table resolving
texture/material references by identifier" (spec §6); the core only threads
it through, so it is modelled as the table of available identifiers.
(`data/assets.rs` is not under `src/`.) -/
structure Assets where
  names : List String

/-- Modelled from the spec: a `Texture` exposes
`value(texture_coords, point, assets) -> Colour` and
`validate(assets) -> result` (spec §6); `world/texture.rs` is not under
`src/`, so a texture is modelled extensionally by those two functions, with
a validation failure carrying its descriptive message. -/
structure Texture where
  value : ℝ × ℝ → Vector → Assets → Colour
  validate : Assets → Except String Unit

/-- The `Material` enum of `materials.rs`. -/
inductive Material where
  | lambertian (albedo : Texture)
  | metal (albedo : Colour) (fuzz : ℝ)
  | dielectric (refractive_index : ℝ)
  | diffuseLight (emit : Texture)
  | isotropic (albedo : Texture)

/-- `ScatterResult`: a scattered ray plus attenuation. -/
structure ScatterResult where
  ray : Ray
  attenuation : Colour

/-- `ScatterResult::new`. -/
def ScatterResult.new (ray : Ray) (attenuation : Colour) : ScatterResult :=
  ⟨ray, attenuation⟩

/-- One candidate of the `random_point_in_unit_sphere` rejection loop:
`2.0 * Vector::new(rng.gen(), rng.gen(), rng.gen()) - centre` where
`centre = (1,1,1)` and `draw` packs the three `rng.gen()` results. -/
def rips_candidate (draw : Vector) : Vector :=
  (2 : ℝ) * draw - Vector.mk 1 1 1

/-- `random_point_in_unit_sphere`, with the RNG made explicit: `draws k` is
the triple of `rng.gen()` results of the `k`-th loop iteration, and `fuel`
bounds the number of iterations inspected (`none` means the loop has not
returned within `fuel` iterations). -/
def random_point_in_unit_sphere : ℕ → (ℕ → Vector) → Option Vector
  | 0, _ => none
  | fuel + 1, draws =>
    if (rips_candidate (draws 0)).len_squared < 1 then some (rips_candidate (draws 0))
    else random_point_in_unit_sphere fuel (fun k => draws (k + 1))

/-- The rejection loop never returns on this draw stream (it diverges). -/
def rips_diverges_on (draws : ℕ → Vector) : Prop :=
  ∀ fuel, random_point_in_unit_sphere fuel draws = none

/-- `reflect`: `uv - 2.0 * (dot(uv, n) * n)`. -/
def reflect (unit_vector surface_normal : Vector) : Vector :=
  unit_vector - (2 : ℝ) * (Vector.dot unit_vector surface_normal * surface_normal)

/-- `refract`: computes `discriminant = 2.0 - ni_over_nt^2 * (1 - dt^2)`
(sic: the source uses the constant `2.0` here) and refracts when it is
positive, else returns `none`. -/
def refract (unit_vector surface_normal : Vector) (ni_over_nt : ℝ) : Option Vector :=
  let uv := unit_vector
  let n := surface_normal
  let dt := Vector.dot uv n
  let discriminant := 2 - ni_over_nt * ni_over_nt * (1 - dt * dt)
  if discriminant > 0 then
    some (ni_over_nt * (uv - n * dt) - n * Real.sqrt discriminant)
  else
    none

/-- `scatter_lambertian`; `diffuse` is the point returned by
`random_point_in_unit_sphere()` on this call. -/
def scatter_lambertian (albedo : Texture) (ray : Ray) (hit_point surface_normal : Vector)
    (texture_coords : ℝ × ℝ) (assets : Assets) (diffuse : Vector) : Option ScatterResult :=
  let target := hit_point + surface_normal + diffuse
  let ray' := Ray.new hit_point (target - hit_point) ray.time
  some ⟨ray', albedo.value texture_coords hit_point assets⟩

/-- `scatter_metal`; `fuzz_draw` is the point returned by
`random_point_in_unit_sphere()` on this call. -/
def scatter_metal (albedo : Colour) (fuzz : ℝ) (ray : Ray) (hit_point surface_normal : Vector)
    (fuzz_draw : Vector) : Option ScatterResult :=
  let unit_vector := ray.direction.unit_vector
  let reflected := reflect unit_vector surface_normal
  let ray' := Ray.new hit_point (reflected + fuzz * fuzz_draw) ray.time
  if Vector.dot ray'.direction surface_normal ≤ 0 then none
  else some ⟨ray', albedo⟩

/-- `REFRACTIVE_INDEX_OF_AIR`. -/
def REFRACTIVE_INDEX_OF_AIR : ℝ := 1

/-- `DIELECTRIC_ATTENUATION: [f64; 3] = [1.0, 1.0, 1.0]`. -/
def DIELECTRIC_ATTENUATION : Fin 3 → ℝ
  | 0 => 1
  | 1 => 1
  | 2 => 1

/-- `reflectivity_schlick_approx`. -/
def reflectivity_schlick_approx (cosine n_i n_t : ℝ) : ℝ :=
  let r0 := (n_i - n_t) / (n_i + n_t)
  let r0 := r0 * r0
  r0 + (1 - r0) * (1 - cosine) ^ (5 : ℕ)

/-- `scatter_dielectric`; `reflect_rand` is the uniform `rng.gen()` draw
deciding reflection versus refraction. -/
def scatter_dielectric (refractive_index : ℝ) (ray : Ray)
    (hit_point surface_normal : Vector) (reflect_rand : ℝ) : Option ScatterResult :=
  let unit_vector := ray.direction.unit_vector
  let reflected := reflect unit_vector surface_normal
  let uvn := Vector.dot unit_vector surface_normal
  let sign : ℝ := if uvn > 0 then -1 else 1
  let n_i : ℝ := if uvn > 0 then refractive_index else REFRACTIVE_INDEX_OF_AIR
  let n_t : ℝ := if uvn > 0 then REFRACTIVE_INDEX_OF_AIR else refractive_index
  let cosine := -sign * uvn
  let reflect_prob := reflectivity_schlick_approx cosine n_i n_t
  let should_reflect := reflect_rand < reflect_prob
  let maybe_refracted :=
    if should_reflect then none
    else refract unit_vector (sign * surface_normal) (n_i / n_t)
  let ray' :=
    match maybe_refracted with
    | some refracted => Ray.new hit_point refracted ray.time
    | none => Ray.new hit_point reflected ray.time
  some ⟨ray', Colour.new (DIELECTRIC_ATTENUATION 0) (DIELECTRIC_ATTENUATION 1)
    (DIELECTRIC_ATTENUATION 2)⟩

/-- `scatter_isotropic`; `dir_draw` is the point returned by
`random_point_in_unit_sphere()` on this call. -/
def scatter_isotropic (albedo : Texture) (ray : Ray) (hit_point : Vector)
    (texture_coords : ℝ × ℝ) (assets : Assets) (dir_draw : Vector) : Option ScatterResult :=
  let scattered := Ray.new hit_point dir_draw ray.time
  let attenuation := albedo.value texture_coords hit_point assets
  some (ScatterResult.new scattered attenuation)

/-- The random draws one `Material::scatter` call can make: `sphere` is the
accepted sample of the unit-sphere rejection loop, `uniform` the uniform
draw of the dielectric branch. -/
structure Draws where
  sphere : Vector
  uniform : ℝ

/-- `Material::scatter`, dispatching on the variant. -/
def Material.scatter (m : Material) (ray : Ray) (hit_point surface_normal : Vector)
    (texture_coords : ℝ × ℝ) (assets : Assets) (draws : Draws) : Option ScatterResult :=
  match m with
  | .lambertian albedo =>
    scatter_lambertian albedo ray hit_point surface_normal texture_coords assets draws.sphere
  | .metal albedo fuzz =>
    scatter_metal albedo fuzz ray hit_point surface_normal draws.sphere
  | .dielectric refractive_index =>
    scatter_dielectric refractive_index ray hit_point surface_normal draws.uniform
  | .diffuseLight _ => none
  | .isotropic albedo =>
    scatter_isotropic albedo ray hit_point texture_coords assets draws.sphere

/-- `Material::emitted`. -/
def Material.emitted (m : Material) (texture_coords : ℝ × ℝ) (point : Vector)
    (assets : Assets) : Colour :=
  match m with
  | .diffuseLight emit => emit.value texture_coords point assets
  | _ => Colour.new 0 0 0

/-- `Material::validate`: recurses into the Lambertian albedo only; every
other variant hits the wildcard arm `_ => Ok(())`. -/
def Material.validate (m : Material) (assets : Assets) : Except String Unit :=
  match m with
  | .lambertian albedo => do
    albedo.validate assets
    .ok ()
  | _ => .ok ()

/-- An `f64` value as relevant to `HitResult` comparison: either NaN or a
numeric value (modelled as a real). -/
inductive F64 where
  | nan : F64
  | fin (val : ℝ) : F64

/-- `f64::partial_cmp`: `none` iff either operand is NaN, otherwise the
numeric ordering. -/
def F64.tryCmp : F64 → F64 → Option Ordering
  | .fin a, .fin b =>
    some (if a < b then Ordering.lt else if b < a then Ordering.gt else Ordering.eq)
  | _, _ => none

/-- `HitResult` from `geometry/mod.rs`: hit distance (an `f64`, possibly
NaN), the producing ray, the hit point, the geometric surface normal, the
material and the 2D texture coordinates. -/
structure HitResult where
  distance : F64
  ray : Ray
  point : Vector
  surface_normal : Vector
  material : Material
  texture_coords : ℝ × ℝ

/-- `Ord::cmp` for `HitResult`:
`self.distance.partial_cmp(&other.distance).unwrap()`; the `unwrap` panic on
NaN is modelled as `none`. -/
def HitResult.cmp (self other : HitResult) : Option Ordering :=
  F64.tryCmp self.distance other.distance

/-- `PartialEq::eq` for `HitResult`: `self.cmp(other) == Ordering::Equal`;
inherits the panic (modelled `none`) of `cmp` on NaN. -/
def HitResult.beq (self other : HitResult) : Option Bool :=
  (self.cmp other).map (fun o => o == Ordering.eq)

/-- The default `Hittable::pdf_value` implementation:
`unimplemented!("{:?} is not implemented as an attractor", self)`; the panic
is modelled as `Except.error` carrying the panic message, with `self_desc`
standing for the `Debug` rendering of `self`. -/
def Hittable.pdf_value_default (self_desc : String) ( _origin _direction : Vector) :
    Except String ℝ :=
  Except.error (self_desc ++ " is not implemented as an attractor")

/-- The default `Hittable::random` implementation, a panic like
`Hittable.pdf_value_default`. -/
def Hittable.random_default (self_desc : String) ( _origin : Vector) :
    Except String Vector :=
  Except.error (self_desc ++ " is not implemented as an attractor")

/-- A texture whose validation fails with a missing-reference error (an
image texture whose asset identifier does not resolve, per spec §6). -/
def missingTex : Texture :=
  ⟨fun _ _ _ => Colour.new 0 0 0, fun _ => Except.error "missing texture reference"⟩

/-- A texture with a constant value whose validation succeeds. -/
def constTex : Texture :=
  ⟨fun _ _ _ => Colour.new 1 1 1, fun _ => Except.ok ()⟩

/-- An asset table with no entries. -/
def emptyAssets : Assets := ⟨[]⟩

/-- A zero ray, as used by the repository's own `HitResult` tests. -/
def zeroRay : Ray := Ray.new (Vector.mk 0 0 0) (Vector.mk 0 0 0) 0

/-- A hit at distance `0` (the repository's `test_hit_result_eq` value). -/
def hitA : HitResult :=
  ⟨F64.fin 0, zeroRay, Vector.mk 0 0 0, Vector.mk 0 0 0,
    Material.dielectric (3 / 2), (1, 1 / 2)⟩

/-- A hit at distance `1`, all other fields as in `hitA`. -/
def hitB : HitResult :=
  ⟨F64.fin 1, zeroRay, Vector.mk 0 0 0, Vector.mk 0 0 0,
    Material.dielectric (3 / 2), (1, 1 / 2)⟩

/-- A hit whose distance is NaN. -/
def hitN : HitResult :=
  ⟨F64.nan, zeroRay, Vector.mk 0 0 0, Vector.mk 0 0 0,
    Material.dielectric (3 / 2), (1, 1 / 2)⟩

end

/-- Claim C3: for every incoming ray, hit point, surface normal and random
draw, Dielectric `scatter` returns `some` result (it never absorbs) and its
attenuation is exactly the colour `(1,1,1)`, whichever of the reflection or
refraction branch is taken. -/
theorem dielectric_scatter_always_white (refractive_index : ℝ) (ray : Ray)
    (hit_point surface_normal : Vector) (tc : ℝ × ℝ) (assets : Assets) (d : Draws) :
    ∃ sr, (Material.dielectric refractive_index).scatter ray hit_point surface_normal
        tc assets d = some sr ∧ sr.attenuation = Colour.new 1 1 1 := by
  refine ⟨_, rfl, ?_⟩
  rfl

/-- Claim C4: Metal `scatter` returns `none` exactly when the fuzz-perturbed
reflected direction `reflect(unit(ray.direction), normal) + fuzz * draw` has
non-positive dot product with the surface normal; otherwise it returns a
result whose ray starts at the hit point with that direction and whose
attenuation is the metal's albedo. -/
theorem metal_scatter_spec (albedo : Colour) (fuzz : ℝ) (ray : Ray)
    (hit_point surface_normal fuzz_draw : Vector) :
    scatter_metal albedo fuzz ray hit_point surface_normal fuzz_draw =
      if Vector.dot (reflect ray.direction.unit_vector surface_normal + fuzz * fuzz_draw)
          surface_normal ≤ 0 then none
      else some (ScatterResult.new
        (Ray.new hit_point
          (reflect ray.direction.unit_vector surface_normal + fuzz * fuzz_draw) ray.time)
        albedo) := rfl

/-- Claim C5: DiffuseLight never scatters (`scatter` returns `none` for every
input), `emitted` returns the emission texture's value for DiffuseLight, and
`emitted` returns the zero colour for every other variant and every input. -/
theorem diffuse_light_spec (t tex : Texture) (c : Colour) (fz ri : ℝ) (ray : Ray)
    (hp n p : Vector) (tc : ℝ × ℝ) (assets : Assets) (d : Draws) :
    (Material.diffuseLight t).scatter ray hp n tc assets d = none ∧
    (Material.diffuseLight t).emitted tc p assets = t.value tc p assets ∧
    (Material.lambertian tex).emitted tc p assets = Colour.new 0 0 0 ∧
    (Material.metal c fz).emitted tc p assets = Colour.new 0 0 0 ∧
    (Material.dielectric ri).emitted tc p assets = Colour.new 0 0 0 ∧
    (Material.isotropic tex).emitted tc p assets = Colour.new 0 0 0 :=
  ⟨rfl, rfl, rfl, rfl, rfl, rfl⟩

/-- Claim C7: the default `Hittable` implementations of `pdf_value` and
`random` abort with the `unimplemented!` panic message instead of returning
a value, for every receiver description, origin and direction. -/
theorem hittable_defaults_abort (self_desc : String) (origin direction : Vector) :
    Hittable.pdf_value_default self_desc origin direction
        = Except.error (self_desc ++ " is not implemented as an attractor") ∧
    Hittable.random_default self_desc origin
        = Except.error (self_desc ++ " is not implemented as an attractor") :=
  ⟨rfl, rfl⟩

/-- Claim C8: Lambertian `scatter` always returns `some` result; its ray
direction is `surface_normal + random_point_in_unit_sphere()` for the draw
made on that call, and its attenuation is the albedo texture evaluated at
the hit point and texture coordinates. -/
theorem lambertian_scatter_spec (albedo : Texture) (ray : Ray) (hp n : Vector)
    (tc : ℝ × ℝ) (assets : Assets) (d : Draws) :
    ∃ sr, (Material.lambertian albedo).scatter ray hp n tc assets d = some sr ∧
      sr.ray.direction = n + d.sphere ∧
      sr.attenuation = albedo.value tc hp assets := by
  refine ⟨_, rfl, ?_, rfl⟩
  show hp + n + d.sphere - hp = n + d.sphere
  ext <;> simp <;> ring

/-- Claim C1 (code bug): at unit direction `(1,0,0)`, oriented normal
`(0,1,0)` and index ratio `6/5`, Snell's refraction discriminant
`1 - (ni/nt)^2 * (1 - (u·n)^2)` is non-positive — total internal
reflection, so the claim requires falling back to reflection — yet the
source's `refract` still returns a refracted direction, because it computes
its discriminant as `2 - (ni/nt)^2 * (1 - (u·n)^2)`. -/
theorem refract_ignores_snell_tir :
    1 - (6 / 5 : ℝ) ^ 2 * (1 - Vector.dot (Vector.mk 1 0 0) (Vector.mk 0 1 0) ^ 2) ≤ 0 ∧
    (refract (Vector.mk 1 0 0) (Vector.mk 0 1 0) (6 / 5)).isSome = true := by
  constructor
  · norm_num [Vector.dot]
  · rw [refract]
    norm_num [Vector.dot]

/-- Claim C2 counterexample: a texture whose validation fails with a
missing-reference error, owned by a DiffuseLight (as `emit`) or an Isotropic
(as `albedo`), is not recursed into: `Material::validate` succeeds on both,
contradicting the claim that it returns the texture's validation failure. -/
theorem material_validate_counterexample :
    missingTex.validate emptyAssets = Except.error "missing texture reference" ∧
    (Material.diffuseLight missingTex).validate emptyAssets = Except.ok () ∧
    (Material.isotropic missingTex).validate emptyAssets = Except.ok () :=
  ⟨rfl, rfl, rfl⟩

/-- Claim C2 (amended): `Material::validate` recurses only into Lambertian's
albedo texture, propagating exactly that texture's validation result; every
other variant — Metal, Dielectric, DiffuseLight and Isotropic — always
succeeds, their textures (if any) unchecked. -/
theorem material_validate_spec (t : Texture) (assets : Assets) (c : Colour) (fz ri : ℝ) :
    (Material.lambertian t).validate assets = t.validate assets ∧
    (Material.metal c fz).validate assets = Except.ok () ∧
    (Material.dielectric ri).validate assets = Except.ok () ∧
    (Material.diffuseLight t).validate assets = Except.ok () ∧
    (Material.isotropic t).validate assets = Except.ok () := by
  refine ⟨?_, rfl, rfl, rfl, rfl⟩
  show Material.validate (Material.lambertian t) assets = t.validate assets
  rw [Material.validate]
  cases ht : t.validate assets with
  | error e => rfl
  | ok u => rfl

/-- Claim C6: `HitResult` comparison depends on the distance field only:
for numeric distances `cmp` returns exactly the numeric ordering of the two
distances and equality holds iff the distances are equal, whatever the other
fields are; and any comparison involving a NaN distance aborts (the
`unwrap` panic, modelled as `none`) rather than comparing unordered. -/
theorem hitresult_cmp_spec :
    (∀ (h o : HitResult) (a b : ℝ), h.distance = F64.fin a → o.distance = F64.fin b →
      ((h.cmp o = some Ordering.lt ↔ a < b) ∧
       (h.cmp o = some Ordering.gt ↔ b < a) ∧
       (h.cmp o = some Ordering.eq ↔ a = b) ∧
       (h.beq o = some true ↔ a = b))) ∧
    (∀ h o : HitResult, h.distance = F64.nan ∨ o.distance = F64.nan →
      h.cmp o = none) := by
  constructor
  · intro h o a b ha hb
    simp only [HitResult.cmp, HitResult.beq, ha, hb, F64.tryCmp, Option.map_some]
    rcases lt_trichotomy a b with hlt | heq | hgt
    · rw [if_pos hlt]
      simp [hlt, asymm hlt, ne_of_lt hlt]
      decide
    · subst heq
      rw [if_neg (lt_irrefl a), if_neg (lt_irrefl a)]
      simp
      decide
    · rw [if_neg (asymm hgt), if_pos hgt]
      simp [hgt, asymm hgt, (ne_of_lt hgt).symm]
      decide
  · intro h o hno
    rcases hno with h1 | h1
    · rw [HitResult.cmp, h1]
      cases o.distance <;> rfl
    · rw [HitResult.cmp, h1]
      cases h.distance <;> rfl

/-- Witness for C6: the repository's own test hits — distances `0` and `1`
compare `lt`, are not equal, and a NaN distance aborts the comparison. -/
theorem hitresult_cmp_spec_witness :
    hitA.cmp hitB = some Ordering.lt ∧ hitN.cmp hitA = none :=
  ⟨(hitresult_cmp_spec.1 hitA hitB 0 1 rfl rfl).1.mpr (by norm_num),
   hitresult_cmp_spec.2 hitN hitA (Or.inl rfl)⟩

/-- Claim C9 counterexample: on the draw stream that always returns
`(0,0,0)` (a value `rng.gen()` can produce), every candidate point is
`(-1,-1,-1)` with squared length `3`, so the rejection loop of
`random_point_in_unit_sphere` never returns — the sampling is not bounded
for every sequence of random draws. -/
theorem rips_unbounded_counterexample :
    rips_diverges_on (fun _ => Vector.mk 0 0 0) := by
  intro fuel
  induction fuel with
  | zero => rfl
  | succ n ih =>
    rw [random_point_in_unit_sphere, if_neg]
    · exact ih
    · norm_num [rips_candidate, Vector.len_squared, Vector.dot]

/-- Claim C9 (amended): every scatter computation outside the unit-sphere
rejection loop is a total function of its inputs and draws, and the
rejection loop terminates within `k+1` iterations whenever the `k`-th draw's
candidate lies inside the unit sphere — so termination holds for every draw
sequence that eventually samples inside the sphere (almost surely), but not
for every sequence outright. -/
theorem rips_returns_after_inside_draw (draws : ℕ → Vector) (k : ℕ)
    (h : (rips_candidate (draws k)).len_squared < 1) :
    (random_point_in_unit_sphere (k + 1) draws).isSome = true := by
  induction k generalizing draws with
  | zero =>
    rw [random_point_in_unit_sphere, if_pos h]
    rfl
  | succ n ih =>
    rw [random_point_in_unit_sphere]
    by_cases h0 : (rips_candidate (draws 0)).len_squared < 1
    · rw [if_pos h0]
      rfl
    · rw [if_neg h0]
      exact ih (fun j => draws (j + 1)) h

/-- Witness for C9's amended theorem: the constant draw `(1/2,1/2,1/2)`
yields candidate `(0,0,0)` inside the sphere, and the loop returns with one
unit of fuel. -/
theorem rips_returns_after_inside_draw_witness :
    (rips_candidate ((fun _ => Vector.mk (1 / 2) (1 / 2) (1 / 2)) 0)).len_squared < 1 ∧
    (random_point_in_unit_sphere 1 (fun _ => Vector.mk (1 / 2) (1 / 2) (1 / 2))).isSome
      = true :=
  ⟨by norm_num [rips_candidate, Vector.len_squared, Vector.dot],
   rips_returns_after_inside_draw (fun _ => Vector.mk (1 / 2) (1 / 2) (1 / 2)) 0
     (by norm_num [rips_candidate, Vector.len_squared, Vector.dot])⟩

/-- Claim C10: whenever `Material::scatter` returns a result — for any
variant and any draws — the scattered ray's origin is the hit point passed
in and its timestamp is the incoming ray's time. -/
theorem scatter_preserves_origin_and_time (m : Material) (ray : Ray) (hp n : Vector)
    (tc : ℝ × ℝ) (assets : Assets) (d : Draws) (sr : ScatterResult)
    (h : m.scatter ray hp n tc assets d = some sr) :
    sr.ray.origin = hp ∧ sr.ray.time = ray.time := by
  cases m with
  | lambertian albedo =>
    simp only [Material.scatter, scatter_lambertian, Option.some.injEq] at h
    subst h
    exact ⟨rfl, rfl⟩
  | metal albedo fuzz =>
    simp only [Material.scatter, scatter_metal] at h
    split at h
    · exact absurd h (by simp)
    · simp only [Option.some.injEq] at h
      subst h
      exact ⟨rfl, rfl⟩
  | dielectric ri =>
    simp only [Material.scatter, scatter_dielectric, Option.some.injEq] at h
    subst h
    refine ⟨?_, ?_⟩ <;> (split <;> rfl)
  | diffuseLight emit =>
    simp only [Material.scatter] at h
    exact Option.noConfusion h
  | isotropic albedo =>
    simp only [Material.scatter, scatter_isotropic, ScatterResult.new,
      Option.some.injEq] at h
    subst h
    exact ⟨rfl, rfl⟩

/-- Witness for C10: a concrete Lambertian scatter whose result ray starts
at the hit point `(1,2,3)` and carries the incoming time `5`. -/
theorem scatter_preserves_origin_and_time_witness :
    (ScatterResult.mk
        (Ray.new (Vector.mk 1 2 3)
          (Vector.mk 1 2 3 + Vector.mk 0 1 0 + Vector.mk 0 0 0 - Vector.mk 1 2 3) 5)
        (Colour.new 1 1 1)).ray.origin = Vector.mk 1 2 3 ∧
    (ScatterResult.mk
        (Ray.new (Vector.mk 1 2 3)
          (Vector.mk 1 2 3 + Vector.mk 0 1 0 + Vector.mk 0 0 0 - Vector.mk 1 2 3) 5)
        (Colour.new 1 1 1)).ray.time
      = (Ray.new (Vector.mk 0 0 0) (Vector.mk 0 0 1) 5).time :=
  scatter_preserves_origin_and_time (Material.lambertian constTex)
    (Ray.new (Vector.mk 0 0 0) (Vector.mk 0 0 1) 5) (Vector.mk 1 2 3) (Vector.mk 0 1 0)
    (0, 0) emptyAssets ⟨Vector.mk 0 0 0, 0⟩ _ rfl

end Rayt
